import Mathlib

/-
Verification development for the Flow class (src/Fbeta.js): a client-side
adapter around a Socket.IO-style messaging library.

Modelling conventions (shallow embedding):
 - Callbacks are identified by natural numbers (JS function identity).
 - Option values passed to the underlying library are opaque; we model them
   as natural numbers.
 - JS objects used as string-keyed maps (`this.eventListeners`, option bags)
   are association lists in key insertion order; property read is `objGet`,
   property assignment is `objSet` (assignment to an absent key appends it,
   as in JS).
 - The underlying socket handle is opaque: the adapter only tests it for
   truthiness and calls its methods, so we keep a Bool (`socket`) recording
   whether `this.socket` is non-null, and record every call the adapter makes
   into its environment as an `Effect` in an ordered trace.
 - `setTimeout(() => this.connect(this.token), 3000)` is modelled by a
   `setTimeoutReconnect 3000` effect; running the scheduled closure later is
   `fireScheduledReconnect`, which reads `this.token` at fire time, exactly
   like the closure.
 - JS truthiness: a missing property (`undefined`) and `null` are falsy; an
   empty string is falsy; an array (even empty) is truthy.
-/

namespace Flow

/-- Callback identity (JS functions compared with `!==`). -/
abbrev Callback := Nat

/-- Opaque option value passed through to the underlying library. -/
abbrev OptVal := Nat

/-- Observable calls the adapter makes into its environment: the underlying
library (`io`, `socket.on`, `socket.emit`, `socket.disconnect`), the console,
user callbacks, and the timer. -/
inductive Effect where
  | ioConnect (url : String) (options : List (String × OptVal))
  | handlerOn (event : String)
  | emit (event : String) (data : Nat)
  | sockDisconnect
  | receiveOn (event : String) (cb : Callback)
  | invoke (cb : Callback) (args : List Nat)
  | logInfo (msg : String)
  | logError (msg : String)
  | setTimeoutReconnect (delayMs : Nat)
deriving DecidableEq

/-- The mutable fields of a `Flow` instance. -/
structure FlowState where
  url : String
  options : List (String × OptVal)
  socket : Bool
  eventListeners : List (String × List Callback)
  token : Option String
deriving DecidableEq

/-- JS object property read: first entry with the given key, `none` for a
missing property (`undefined`). -/
def objGet {α : Type} : List (String × α) → String → Option α
  | [], _ => none
  | (k, v) :: rest, e => if k = e then some v else objGet rest e

/-- JS object property assignment: overwrite the entry when the key exists,
append it otherwise. -/
def objSet {α : Type} (e : String) (v : α) : List (String × α) → List (String × α)
  | [] => [(e, v)]
  | (k, w) :: rest => if k = e then (k, v) :: rest else (k, w) :: objSet e v rest

/-- The `Flow` constructor: `this.url = url; this.options = options;
this.socket = null; this.eventListeners = {connect: [], disconnect: [],
error: []}; this.token = null`. -/
def initFlow (url : String) (options : List (String × OptVal)) : FlowState :=
  { url := url
    options := options
    socket := false
    eventListeners := [("connect", []), ("disconnect", []), ("error", [])]
    token := none }

/-- Flow.appendTokenToURL: `url.includes('?')` picks the separator (a
single-character substring test, i.e. character membership), then the
template string `url + separator + "token=" + token`. -/
def appendTokenToURL (url token : String) : String :=
  let separator := if '?' ∈ url.data then "&" else "?"
  url ++ separator ++ "token=" ++ token

/-- Flow.connect: `if (token)` (JS truthiness: null and the empty string are
falsy) stores the token and rewrites `this.url`; then `io(this.url,
this.options)` is assigned to `this.socket` and the four lifecycle handlers
are registered on the fresh socket. -/
def connect (token : Option String) (s : FlowState) : FlowState × List Effect :=
  let s1 := match token with
    | some t => if t = "" then s else { s with token := some t, url := appendTokenToURL s.url t }
    | none => s
  ({ s1 with socket := true },
   [Effect.ioConnect s1.url s1.options,
    Effect.handlerOn "connect", Effect.handlerOn "disconnect",
    Effect.handlerOn "error", Effect.handlerOn "connect_error"])

/-- Flow.clearEventListeners: `Object.keys(...).forEach(k => this.eventListeners[k] = [])`. -/
def clearEventListeners (el : List (String × List Callback)) : List (String × List Callback) :=
  el.map (fun p => (p.1, []))

/-- Flow.disconnect: if a socket handle exists, call `socket.disconnect()`
and clear all listener sequences. Note the handle itself is NOT nulled. -/
def disconnect (s : FlowState) : FlowState × List Effect :=
  if s.socket then
    ({ s with eventListeners := clearEventListeners s.eventListeners }, [Effect.sockDisconnect])
  else (s, [])

/-- Flow.send: if a socket handle exists, `socket.emit(event, data)`. -/
def send (event : String) (data : Nat) (s : FlowState) : FlowState × List Effect :=
  if s.socket then (s, [Effect.emit event data]) else (s, [])

/-- Flow.receive: if a socket handle exists, register the callback directly
with the underlying library (`socket.on(event, callback)`). -/
def receive (event : String) (cb : Callback) (s : FlowState) : FlowState × List Effect :=
  if s.socket then (s, [Effect.receiveOn event cb]) else (s, [])

/-- Flow.on: `if (this.eventListeners[event])` (an array, even empty, is
truthy; `undefined` is falsy) then push the callback. Named `onEvent` here
because `on` is a reserved notation token in Lean. -/
def onEvent (event : String) (cb : Callback) (s : FlowState) : FlowState × List Effect :=
  match objGet s.eventListeners event with
  | some l => ({ s with eventListeners := objSet event (l ++ [cb]) s.eventListeners }, [])
  | none => (s, [])

/-- Flow.off: `if (this.eventListeners[event])` then replace the sequence by
`filter(cb => cb !== callback)`. -/
def off (event : String) (cb : Callback) (s : FlowState) : FlowState × List Effect :=
  match objGet s.eventListeners event with
  | some l =>
      ({ s with eventListeners := objSet event (l.filter (fun c => c != cb)) s.eventListeners }, [])
  | none => (s, [])

/-- Flow.triggerEvent: `if (this.eventListeners[event])` then
`forEach(callback => callback(...args))`, invoking each registered callback
in insertion order with the given arguments. -/
def triggerEvent (event : String) (args : List Nat) (s : FlowState) : FlowState × List Effect :=
  match objGet s.eventListeners event with
  | some l => (s, l.map (fun cb => Effect.invoke cb args))
  | none => (s, [])

/-- Flow.handleConnect: log, then trigger the `connect` sequence with no
arguments. -/
def handleConnect (s : FlowState) : FlowState × List Effect :=
  ((triggerEvent "connect" [] s).1,
   Effect.logInfo "Connected to server" :: (triggerEvent "connect" [] s).2)

/-- Flow.handleDisconnect: log, then trigger the `disconnect` sequence with
no arguments. -/
def handleDisconnect (s : FlowState) : FlowState × List Effect :=
  ((triggerEvent "disconnect" [] s).1,
   Effect.logInfo "Disconnected from server" :: (triggerEvent "disconnect" [] s).2)

/-- Flow.handleError: log, then trigger the `error` sequence passing the
error value. -/
def handleError (err : Nat) (s : FlowState) : FlowState × List Effect :=
  ((triggerEvent "error" [err] s).1,
   Effect.logError "Connection error:" :: (triggerEvent "error" [err] s).2)

/-- Flow.handleConnectError: log the error and schedule
`() => this.connect(this.token)` after 3000 ms. No callback is invoked and
the state is untouched. -/
def handleConnectError (_err : Nat) (s : FlowState) : FlowState × List Effect :=
  (s, [Effect.logError "Connection error, attempting to reconnect:",
       Effect.setTimeoutReconnect 3000])

/-- Running the closure scheduled by `handleConnectError`: it reads
`this.token` at fire time and calls `connect` with it. -/
def fireScheduledReconnect (s : FlowState) : FlowState × List Effect :=
  connect s.token s

/-- JS object spread `{...old, ...nw}`: old keys in order with values
overridden by `nw` where present, then the keys only in `nw`, in order. -/
def mergeOptions (old nw : List (String × OptVal)) : List (String × OptVal) :=
  old.map (fun p => match objGet nw p.1 with | some v => (p.1, v) | none => p)
    ++ nw.filter (fun p => (objGet old p.1).isNone)

/-- Flow.setOptions: merge the new options in, and if a socket handle exists
call `socket.disconnect()` directly (NOT `this.disconnect()`, so listeners
survive) followed by `this.connect(this.token)`. -/
def setOptions (nw : List (String × OptVal)) (s : FlowState) : FlowState × List Effect :=
  let s1 := { s with options := mergeOptions s.options nw }
  if s1.socket then
    ((connect s1.token s1).1, Effect.sockDisconnect :: (connect s1.token s1).2)
  else (s1, [])

/-- Every operation of the adapter, public entry points and internal handlers
alike, for reasoning about arbitrary operation sequences. -/
inductive FlowOp where
  | opConnect (token : Option String)
  | opDisconnect
  | opSend (event : String) (data : Nat)
  | opReceive (event : String) (cb : Callback)
  | opOn (event : String) (cb : Callback)
  | opOff (event : String) (cb : Callback)
  | opSetOptions (nw : List (String × OptVal))
  | opHandleConnect
  | opHandleDisconnect
  | opHandleError (err : Nat)
  | opHandleConnectError (err : Nat)
  | opFireReconnect
deriving DecidableEq

/-- Dispatch a single operation. -/
def applyOp : FlowOp → FlowState → FlowState × List Effect
  | FlowOp.opConnect t, s => connect t s
  | FlowOp.opDisconnect, s => disconnect s
  | FlowOp.opSend e d, s => send e d s
  | FlowOp.opReceive e cb, s => receive e cb s
  | FlowOp.opOn e cb, s => onEvent e cb s
  | FlowOp.opOff e cb, s => off e cb s
  | FlowOp.opSetOptions nw, s => setOptions nw s
  | FlowOp.opHandleConnect, s => handleConnect s
  | FlowOp.opHandleDisconnect, s => handleDisconnect s
  | FlowOp.opHandleError err, s => handleError err s
  | FlowOp.opHandleConnectError err, s => handleConnectError err s
  | FlowOp.opFireReconnect, s => fireScheduledReconnect s

/-- Run a sequence of operations, keeping only the final state. -/
def runOps (ops : List FlowOp) (s : FlowState) : FlowState :=
  ops.foldl (fun st op => (applyOp op st).1) s

/-- Register a list of callbacks for one event via repeated `on` calls. -/
def registerAll (event : String) (cbs : List Callback) (s : FlowState) : FlowState :=
  cbs.foldl (fun st cb => (onEvent event cb st).1) s

/-
Checked (exception-aware) semantics of the seven public operations. A JS
method call on a possibly-null / possibly-undefined receiver
(`this.socket.emit(...)`, `this.eventListeners[event].push(...)`, ...) throws
a TypeError when the receiver is null or undefined; here each such call site
is modelled by a helper returning `Except`, placed under exactly the guard
the source puts around it. The adapter never throws iff every public
operation evaluates to `Except.ok`.
-/

/-- Call `socket.on(event, handler)` on a receiver that may be null. -/
def handlerOnCall (sock : Bool) (event : String) : Except String Effect :=
  if sock then Except.ok (Effect.handlerOn event)
  else Except.error "TypeError: Cannot read properties of null"

/-- Call `socket.emit(event, data)` on a receiver that may be null. -/
def socketEmitCall (sock : Bool) (event : String) (data : Nat) : Except String (List Effect) :=
  if sock then Except.ok [Effect.emit event data]
  else Except.error "TypeError: Cannot read properties of null"

/-- Call `socket.disconnect()` on a receiver that may be null. -/
def socketDisconnectCall (sock : Bool) : Except String (List Effect) :=
  if sock then Except.ok [Effect.sockDisconnect]
  else Except.error "TypeError: Cannot read properties of null"

/-- Call `socket.on(event, callback)` for `receive` on a receiver that may be
null. -/
def socketReceiveCall (sock : Bool) (event : String) (cb : Callback) :
    Except String (List Effect) :=
  if sock then Except.ok [Effect.receiveOn event cb]
  else Except.error "TypeError: Cannot read properties of null"

/-- Call `.push(x)` on a property read that may be undefined. -/
def pushCall {α : Type} : Option (List α) → α → Except String (List α)
  | some l, x => Except.ok (l ++ [x])
  | none, _ => Except.error "TypeError: Cannot read properties of undefined"

/-- Call `.filter(p)` on a property read that may be undefined. -/
def filterCall {α : Type} (p : α → Bool) : Option (List α) → Except String (List α)
  | some l => Except.ok (l.filter p)
  | none => Except.error "TypeError: Cannot read properties of undefined"

/-- Checked Flow.connect: the four `socket.on` registrations run on the
freshly assigned socket. -/
def connectE (token : Option String) (s : FlowState) : Except String (FlowState × List Effect) :=
  let s1 := match token with
    | some t => if t = "" then s else { s with token := some t, url := appendTokenToURL s.url t }
    | none => s
  let s2 := { s1 with socket := true }
  match handlerOnCall s2.socket "connect" with
  | Except.error m => Except.error m
  | Except.ok h1 =>
    match handlerOnCall s2.socket "disconnect" with
    | Except.error m => Except.error m
    | Except.ok h2 =>
      match handlerOnCall s2.socket "error" with
      | Except.error m => Except.error m
      | Except.ok h3 =>
        match handlerOnCall s2.socket "connect_error" with
        | Except.error m => Except.error m
        | Except.ok h4 =>
            Except.ok (s2, [Effect.ioConnect s1.url s1.options, h1, h2, h3, h4])

/-- Checked Flow.disconnect. -/
def disconnectE (s : FlowState) : Except String (FlowState × List Effect) :=
  if s.socket then
    match socketDisconnectCall s.socket with
    | Except.ok tr =>
        Except.ok ({ s with eventListeners := clearEventListeners s.eventListeners }, tr)
    | Except.error m => Except.error m
  else Except.ok (s, [])

/-- Checked Flow.send. -/
def sendE (event : String) (data : Nat) (s : FlowState) : Except String (FlowState × List Effect) :=
  if s.socket then
    match socketEmitCall s.socket event data with
    | Except.ok tr => Except.ok (s, tr)
    | Except.error m => Except.error m
  else Except.ok (s, [])

/-- Checked Flow.receive. -/
def receiveE (event : String) (cb : Callback) (s : FlowState) :
    Except String (FlowState × List Effect) :=
  if s.socket then
    match socketReceiveCall s.socket event cb with
    | Except.ok tr => Except.ok (s, tr)
    | Except.error m => Except.error m
  else Except.ok (s, [])

/-- Checked Flow.on. -/
def onE (event : String) (cb : Callback) (s : FlowState) :
    Except String (FlowState × List Effect) :=
  if (objGet s.eventListeners event).isSome then
    match pushCall (objGet s.eventListeners event) cb with
    | Except.ok l => Except.ok ({ s with eventListeners := objSet event l s.eventListeners }, [])
    | Except.error m => Except.error m
  else Except.ok (s, [])

/-- Checked Flow.off. -/
def offE (event : String) (cb : Callback) (s : FlowState) :
    Except String (FlowState × List Effect) :=
  if (objGet s.eventListeners event).isSome then
    match filterCall (fun c => c != cb) (objGet s.eventListeners event) with
    | Except.ok l => Except.ok ({ s with eventListeners := objSet event l s.eventListeners }, [])
    | Except.error m => Except.error m
  else Except.ok (s, [])

/-- Checked Flow.setOptions: `this.socket.disconnect()` under the guard, then
the recursive call into `connect`. -/
def setOptionsE (nw : List (String × OptVal)) (s : FlowState) :
    Except String (FlowState × List Effect) :=
  let s1 := { s with options := mergeOptions s.options nw }
  if s1.socket then
    match socketDisconnectCall s1.socket with
    | Except.ok tr =>
        match connectE s1.token s1 with
        | Except.ok r => Except.ok (r.1, tr ++ r.2)
        | Except.error m => Except.error m
    | Except.error m => Except.error m
  else Except.ok (s1, [])

end Flow

namespace Flow

theorem string_data_append (a b : String) : (a ++ b).data = a.data ++ b.data := by
  cases a
  cases b
  rfl

theorem string_ext_data (a b : String) (h : a.data = b.data) : a = b := by
  cases a
  cases b
  exact congrArg String.mk h

theorem objGet_objSet_self {α : Type} (el : List (String × α)) (e : String) (v : α) :
    objGet (objSet e v el) e = some v := by
  induction el with
  | nil => simp [objSet, objGet]
  | cons p rest ih =>
      obtain ⟨k, w⟩ := p
      by_cases h : k = e
      · simp [objSet, objGet, h]
      · simp [objSet, objGet, h, ih]

theorem objGet_objSet_ne {α : Type} (el : List (String × α)) (e e' : String) (v : α)
    (h : e' ≠ e) : objGet (objSet e v el) e' = objGet el e' := by
  induction el with
  | nil => simp [objSet, objGet, Ne.symm h]
  | cons p rest ih =>
      obtain ⟨k, w⟩ := p
      by_cases hk : k = e
      · subst hk
        simp [objSet, objGet, Ne.symm h]
      · simp [objSet, objGet, hk, ih]

theorem map_fst_objSet {α : Type} (el : List (String × α)) (e : String) (v : α)
    (h : (objGet el e).isSome) : (objSet e v el).map Prod.fst = el.map Prod.fst := by
  induction el with
  | nil => simp [objGet] at h
  | cons p rest ih =>
      obtain ⟨k, w⟩ := p
      by_cases hk : k = e
      · simp [objSet, hk]
      · simp [objGet, hk] at h
        simp [objSet, hk, ih h]

theorem objSet_self_of_get {α : Type} (el : List (String × α)) (e : String) (v : α)
    (h : objGet el e = some v) : objSet e v el = el := by
  induction el with
  | nil => simp [objGet] at h
  | cons p rest ih =>
      obtain ⟨k, w⟩ := p
      by_cases hk : k = e
      · simp [objGet, hk] at h
        simp [objSet, hk, h]
      · simp [objGet, hk] at h
        simp [objSet, hk, ih h]

theorem objGet_eq_none_iff {α : Type} (el : List (String × α)) (e : String) :
    objGet el e = none ↔ e ∉ el.map Prod.fst := by
  induction el with
  | nil => simp [objGet]
  | cons p rest ih =>
      obtain ⟨k, w⟩ := p
      by_cases hk : k = e
      · subst hk
        simp [objGet]
      · simp [objGet, hk, ih, Ne.symm hk]

theorem connect_eventListeners (t : Option String) (s : FlowState) :
    ((connect t s).1).eventListeners = s.eventListeners := by
  cases t with
  | none => rfl
  | some v =>
      by_cases h : v = "" <;> simp [connect, h]

theorem connect_options (t : Option String) (s : FlowState) :
    ((connect t s).1).options = s.options := by
  cases t with
  | none => rfl
  | some v =>
      by_cases h : v = "" <;> simp [connect, h]

theorem connect_socket_true (t : Option String) (s : FlowState) :
    ((connect t s).1).socket = true := by
  cases t with
  | none => rfl
  | some v =>
      by_cases h : v = "" <;> simp [connect, h]

theorem connect_some_url (s : FlowState) (t : String) (ht : t ≠ "") :
    ((connect (some t) s).1).url = appendTokenToURL s.url t := by
  simp [connect, ht]

theorem connect_some_token (s : FlowState) (t : String) (ht : t ≠ "") :
    ((connect (some t) s).1).token = some t := by
  simp [connect, ht]

theorem qmark_mem_appendTokenToURL (u t : String) :
    '?' ∈ (appendTokenToURL u t).data := by
  unfold appendTokenToURL
  by_cases h : '?' ∈ u.data <;> simp [h, string_data_append]

theorem appendTokenToURL_of_qmark (u t : String) (h : '?' ∈ u.data) :
    appendTokenToURL u t = u ++ "&token=" ++ t := by
  unfold appendTokenToURL
  simp [h]
  apply string_ext_data
  simp [string_data_append]

end Flow

namespace Flow

theorem triggerEvent_fst (e : String) (args : List Nat) (s : FlowState) :
    (triggerEvent e args s).1 = s := by
  cases h : objGet s.eventListeners e <;> simp [triggerEvent, h]

theorem map_fst_clearEventListeners (el : List (String × List Callback)) :
    (clearEventListeners el).map Prod.fst = el.map Prod.fst := by
  induction el with
  | nil => rfl
  | cons p rest ih => simp [clearEventListeners] at ih ⊢

theorem applyOp_map_fst (op : FlowOp) (s : FlowState) :
    ((applyOp op s).1).eventListeners.map Prod.fst = s.eventListeners.map Prod.fst := by
  cases op with
  | opConnect t => simp [applyOp, connect_eventListeners]
  | opDisconnect =>
      by_cases h : s.socket <;> simp [applyOp, disconnect, h, map_fst_clearEventListeners]
  | opSend e d => by_cases h : s.socket <;> simp [applyOp, send, h]
  | opReceive e cb => by_cases h : s.socket <;> simp [applyOp, receive, h]
  | opOn e cb =>
      cases h : objGet s.eventListeners e with
      | none => simp [applyOp, onEvent, h]
      | some l =>
          simp [applyOp, onEvent, h]
          exact map_fst_objSet _ _ _ (by simp [h])
  | opOff e cb =>
      cases h : objGet s.eventListeners e with
      | none => simp [applyOp, off, h]
      | some l =>
          simp [applyOp, off, h]
          exact map_fst_objSet _ _ _ (by simp [h])
  | opSetOptions nw =>
      by_cases h : s.socket <;> simp [applyOp, setOptions, h, connect_eventListeners]
  | opHandleConnect => simp [applyOp, handleConnect, triggerEvent_fst]
  | opHandleDisconnect => simp [applyOp, handleDisconnect, triggerEvent_fst]
  | opHandleError err => simp [applyOp, handleError, triggerEvent_fst]
  | opHandleConnectError err => simp [applyOp, handleConnectError]
  | opFireReconnect => simp [applyOp, fireScheduledReconnect, connect_eventListeners]

theorem runOps_cons (op : FlowOp) (ops : List FlowOp) (s : FlowState) :
    runOps (op :: ops) s = runOps ops ((applyOp op s).1) := rfl

theorem runOps_map_fst (ops : List FlowOp) (s : FlowState) :
    (runOps ops s).eventListeners.map Prod.fst = s.eventListeners.map Prod.fst := by
  induction ops generalizing s with
  | nil => rfl
  | cons op ops ih => rw [runOps_cons, ih, applyOp_map_fst]

theorem objGet_registerAll (e : String) (cbs : List Callback) :
    ∀ (s : FlowState) (l : List Callback), objGet s.eventListeners e = some l →
      objGet (registerAll e cbs s).eventListeners e = some (l ++ cbs) := by
  induction cbs with
  | nil => intro s l h; simpa [registerAll] using h
  | cons cb cbs ih =>
      intro s l h
      have hstep : registerAll e (cb :: cbs) s = registerAll e cbs ((onEvent e cb s).1) := rfl
      rw [hstep]
      have h1 : objGet ((onEvent e cb s).1).eventListeners e = some (l ++ [cb]) := by
        simp [onEvent, h, objGet_objSet_self]
      have := ih ((onEvent e cb s).1) (l ++ [cb]) h1
      simpa using this

theorem objGet_append {α : Type} (a b : List (String × α)) (k : String) :
    objGet (a ++ b) k = match objGet a k with
      | some v => some v
      | none => objGet b k := by
  induction a with
  | nil => simp [objGet]
  | cons p rest ih =>
      obtain ⟨k0, v0⟩ := p
      by_cases hk : k0 = k <;> simp [objGet, hk, ih]

theorem objGet_filter_key {α : Type} (q : String → Bool) (l : List (String × α)) (k : String) :
    objGet (l.filter (fun p => q p.1)) k = if q k then objGet l k else none := by
  induction l with
  | nil => simp [objGet]
  | cons p rest ih =>
      obtain ⟨k1, v1⟩ := p
      by_cases hq : q k1
      · by_cases hk : k1 = k
        · subst hk
          simp [List.filter, hq, objGet, ih]
        · simp [List.filter, hq, objGet, hk, ih]
      · by_cases hk : k1 = k
        · subst hk
          simp [List.filter, hq, objGet, ih]
        · simp [List.filter, hq, objGet, hk, ih]

theorem objGet_map_override (old nw : List (String × OptVal)) (k : String) :
    objGet (old.map (fun p => match objGet nw p.1 with | some v => (p.1, v) | none => p)) k
      = match objGet old k with
        | some w => some (match objGet nw k with | some v => v | none => w)
        | none => none := by
  induction old with
  | nil => simp [objGet]
  | cons p rest ih =>
      obtain ⟨k0, w0⟩ := p
      by_cases hk : k0 = k
      · subst hk
        cases hnw : objGet nw k0 <;> simp [objGet, hnw, ih]
      · cases hnw : objGet nw k0 <;> simp [objGet, hk, hnw, ih]

theorem objGet_mergeOptions (old nw : List (String × OptVal)) (k : String) :
    objGet (mergeOptions old nw) k
      = match objGet nw k with
        | some v => some v
        | none => objGet old k := by
  unfold mergeOptions
  rw [objGet_append, objGet_map_override,
    objGet_filter_key (fun x => (objGet old x).isNone) nw k]
  cases hold : objGet old k <;> cases hnw : objGet nw k <;> simp [hold, hnw]

end Flow

namespace Flow

theorem connectE_ok (t : Option String) (s : FlowState) :
    connectE t s = Except.ok (connect t s) := by
  cases t with
  | none => rfl
  | some v => by_cases h : v = "" <;> simp [connectE, connect, handlerOnCall, h]

theorem disconnectE_ok (s : FlowState) : disconnectE s = Except.ok (disconnect s) := by
  by_cases h : s.socket <;> simp [disconnectE, disconnect, socketDisconnectCall, h]

theorem sendE_ok (e : String) (d : Nat) (s : FlowState) :
    sendE e d s = Except.ok (send e d s) := by
  by_cases h : s.socket <;> simp [sendE, send, socketEmitCall, h]

theorem receiveE_ok (e : String) (cb : Callback) (s : FlowState) :
    receiveE e cb s = Except.ok (receive e cb s) := by
  by_cases h : s.socket <;> simp [receiveE, receive, socketReceiveCall, h]

theorem onE_ok (e : String) (cb : Callback) (s : FlowState) :
    onE e cb s = Except.ok (onEvent e cb s) := by
  cases h : objGet s.eventListeners e <;> simp [onE, onEvent, pushCall, h]

theorem offE_ok (e : String) (cb : Callback) (s : FlowState) :
    offE e cb s = Except.ok (off e cb s) := by
  cases h : objGet s.eventListeners e <;> simp [offE, off, filterCall, h]

theorem setOptionsE_ok (nw : List (String × OptVal)) (s : FlowState) :
    setOptionsE nw s = Except.ok (setOptions nw s) := by
  by_cases h : s.socket <;>
    simp [setOptionsE, setOptions, socketDisconnectCall, h, connectE_ok]

end Flow

namespace Flow

/-- Claim C1, counterexample: on a connected instance, `disconnect()` followed
by `send("e", 0)` still performs an emit call, because `disconnect` never
nulls `this.socket`. -/
theorem claim1_counterexample :
    (send "e" 0 ((disconnect ((connect none (initFlow "http://host/" [])).1)).1)).2
      = [Effect.emit "e" 0] ∧
    (send "e" 0 ((disconnect ((connect none (initFlow "http://host/" [])).1)).1)).2 ≠ [] := by
  constructor <;> decide

/-- Claim C1, amended: after `disconnect()` the connection handle remains set,
so `send(e, d)` still forwards exactly one emit call to the underlying
library; `send` is a no-op only when no handle has ever been created. -/
theorem claim1_amended (s : FlowState) (e : String) (d : Nat) (h : s.socket = true) :
    ((disconnect s).1).socket = true ∧
    (send e d ((disconnect s).1)).2 = [Effect.emit e d] := by
  simp [disconnect, send, h]

theorem claim1_witness :
    ((disconnect ((connect none (initFlow "u" [])).1)).1).socket = true ∧
    (send "e" 3 ((disconnect ((connect none (initFlow "u" [])).1)).1)).2
      = [Effect.emit "e" 3] :=
  claim1_amended ((connect none (initFlow "u" [])).1) "e" 3 (by decide)

/-- Claim C2, counterexample: the empty string is a non-null token, but JS
`if (token)` treats it as falsy, so `connect("")` opens the connection with
the unmodified URL instead of appending `token=`. -/
theorem claim2_counterexample :
    (connect (some "") (initFlow "http://host/" [])).2.head?
      = some (Effect.ioConnect "http://host/" []) ∧
    (connect (some "") (initFlow "http://host/" [])).2.head?
      ≠ some (Effect.ioConnect "http://host/?token=" []) := by
  constructor <;> decide

/-- Claim C2, amended: for every non-null, non-empty token `t`, `connect t`
opens the connection with the stored URL extended by `token=t`, joined with
`&` when the URL already contains a `?` and with `?` otherwise, and records
the token and the extended URL. -/
theorem claim2_amended (s : FlowState) (t : String) (ht : t ≠ "") :
    (connect (some t) s).2.head?
      = some (Effect.ioConnect
          (s.url ++ (if '?' ∈ s.url.data then "&" else "?") ++ "token=" ++ t) s.options) ∧
    ((connect (some t) s).1).url
      = s.url ++ (if '?' ∈ s.url.data then "&" else "?") ++ "token=" ++ t ∧
    ((connect (some t) s).1).token = some t := by
  refine ⟨?_, ?_, ?_⟩ <;> simp [connect, ht, appendTokenToURL]

theorem claim2_witness :
    ((connect (some "abc") (initFlow "http://host/" [])).1).url = "http://host/?token=abc" ∧
    ((connect (some "abc") (initFlow "http://host/?x=1" [])).1).url
      = "http://host/?x=1&token=abc" := by
  have h1 := (claim2_amended (initFlow "http://host/" []) "abc" (by decide)).2.1
  have h2 := (claim2_amended (initFlow "http://host/?x=1" []) "abc" (by decide)).2.1
  exact ⟨h1.trans (by decide), h2.trans (by decide)⟩

/-- Claim C3: every callback registered with `on("connect", _)` is invoked by
a triggered underlying connect event exactly once, in registration order,
with no arguments (after the informational log). -/
theorem claim3_connect_order (u : String) (o : List (String × OptVal)) (cbs : List Callback) :
    (handleConnect (registerAll "connect" cbs (initFlow u o))).2
      = Effect.logInfo "Connected to server" :: cbs.map (fun cb => Effect.invoke cb []) := by
  have h := objGet_registerAll "connect" cbs (initFlow u o) [] rfl
  simp [handleConnect, triggerEvent, h]

/-- Claim C4: `off e cb` removes every occurrence of `cb` from the sequence
for `e`, so a subsequently triggered event of that name never invokes `cb`;
`off` is a no-op when the event name is unrecognized or `cb` was never
registered. -/
theorem claim4_off_removes (s : FlowState) (e : String) (cb : Callback) (args : List Nat) :
    (∀ l, objGet s.eventListeners e = some l →
        objGet ((off e cb s).1).eventListeners e = some (l.filter (fun c => c != cb))) ∧
    (∀ x ∈ (triggerEvent e args ((off e cb s).1)).2, x ≠ Effect.invoke cb args) ∧
    (objGet s.eventListeners e = none → (off e cb s).1 = s) ∧
    (∀ l, objGet s.eventListeners e = some l → cb ∉ l → (off e cb s).1 = s) := by
  refine ⟨?_, ?_, ?_, ?_⟩
  · intro l h
    simp [off, h, objGet_objSet_self]
  · cases h : objGet s.eventListeners e with
    | none =>
        simp [off, h, triggerEvent]
    | some l =>
        have hget : objGet ((off e cb s).1).eventListeners e
            = some (l.filter (fun c => c != cb)) := by
          simp [off, h, objGet_objSet_self]
        intro x hx
        rw [triggerEvent, hget] at hx
        simp at hx
        obtain ⟨c, hc, hcx⟩ := hx
        intro hcontra
        rw [hcontra] at hcx
        have : c = cb := by
          have := congrArg (fun eff => match eff with
            | Effect.invoke cc _ => cc
            | _ => 0) hcx
          simpa using this
        rw [this] at hc
        simp at hc
  · intro h
    simp [off, h]
  · intro l h hcb
    have hfilter : l.filter (fun c => c != cb) = l := by
      rw [List.filter_eq_self]
      intro a ha
      simp
      intro hac
      exact hcb (hac ▸ ha)
    simp [off, h, hfilter, objSet_self_of_get s.eventListeners e l h]

theorem claim4_witness :
    objGet ((off "connect" 7
        ((onEvent "connect" 5 ((onEvent "connect" 7 ((onEvent "connect" 5
          (initFlow "u" [])).1)).1)).1)).1).eventListeners "connect" = some [5, 5] ∧
    (off "nope" 9
        ((onEvent "connect" 5 ((onEvent "connect" 7 ((onEvent "connect" 5
          (initFlow "u" [])).1)).1)).1)).1
      = ((onEvent "connect" 5 ((onEvent "connect" 7 ((onEvent "connect" 5
          (initFlow "u" [])).1)).1)).1) := by
  constructor
  · have h := (claim4_off_removes
      ((onEvent "connect" 5 ((onEvent "connect" 7 ((onEvent "connect" 5
        (initFlow "u" [])).1)).1)).1) "connect" 7 []).1 [5, 7, 5] (by decide)
    exact h.trans (by decide)
  · exact (claim4_off_removes
      ((onEvent "connect" 5 ((onEvent "connect" 7 ((onEvent "connect" 5
        (initFlow "u" [])).1)).1)).1) "nope" 9 []).2.2.1 (by decide)

end Flow

namespace Flow

theorem setOptions_options (nw : List (String × OptVal)) (s : FlowState) :
    ((setOptions nw s).1).options = mergeOptions s.options nw := by
  by_cases h : s.socket <;> simp [setOptions, h, connect_options]

theorem setOptions_fst_of_socket (nw : List (String × OptVal)) (s : FlowState)
    (h : s.socket = true) :
    (setOptions nw s).1 = (connect s.token { s with options := mergeOptions s.options nw }).1 := by
  simp [setOptions, h]

/-- Claim C5: `setOptions` shallow-merges with new keys overriding old, and
when a handle exists it performs exactly one `socket.disconnect()` followed
by one `connect` with the previously stored token. -/
theorem claim5_setOptions (s : FlowState) (o1 o2 nw : List (String × OptVal)) (k : String) :
    (objGet (mergeOptions s.options nw) k
      = match objGet nw k with
        | some v => some v
        | none => objGet s.options k) ∧
    ((setOptions o2 ((setOptions o1 s).1)).1).options
      = mergeOptions (mergeOptions s.options o1) o2 ∧
    (s.socket = true →
      (setOptions nw s).2
        = Effect.sockDisconnect
            :: (connect s.token { s with options := mergeOptions s.options nw }).2) ∧
    (s.socket = false → (setOptions nw s).2 = []) := by
  refine ⟨objGet_mergeOptions s.options nw k, ?_, ?_, ?_⟩
  · rw [setOptions_options, setOptions_options]
  · intro h
    simp [setOptions, h]
  · intro h
    simp [setOptions, h]

theorem claim5_witness :
    ((setOptions [("b", 2)] ((setOptions [("a", 1)] (initFlow "u" [])).1)).1).options
      = [("a", 1), ("b", 2)] ∧
    (setOptions [("b", 2)] ((connect none (initFlow "u" [])).1)).2
      = [Effect.sockDisconnect, Effect.ioConnect "u" [("b", 2)], Effect.handlerOn "connect",
         Effect.handlerOn "disconnect", Effect.handlerOn "error",
         Effect.handlerOn "connect_error"] := by
  constructor
  · exact ((claim5_setOptions (initFlow "u" []) [("a", 1)] [("b", 2)] [] "k").2.1).trans
      (by decide)
  · exact ((claim5_setOptions ((connect none (initFlow "u" [])).1) [] [] [("b", 2)] "k").2.2.1
      (by decide)).trans (by decide)

/-- Claim C6: a connect-error notification logs, schedules exactly one
reconnect attempt with a fixed 3000 ms delay, invokes no registered callback,
and the scheduled attempt calls `connect` with the token stored at fire
time. -/
theorem claim6_connect_error (s : FlowState) (err : Nat) :
    (handleConnectError err s).2
      = [Effect.logError "Connection error, attempting to reconnect:",
         Effect.setTimeoutReconnect 3000] ∧
    (handleConnectError err s).1 = s ∧
    (∀ cb args, Effect.invoke cb args ∉ (handleConnectError err s).2) ∧
    (∀ s2, fireScheduledReconnect s2 = connect s2.token s2) := by
  refine ⟨rfl, rfl, ?_, fun s2 => rfl⟩
  intro cb args hmem
  simp [handleConnectError] at hmem

/-- Claim C7: across every operation sequence starting from a fresh instance
the event registry holds exactly the keys connect, disconnect, error, and
`on` under any other name is a no-op. -/
theorem claim7_registry_keys (u : String) (o : List (String × OptVal)) (ops : List FlowOp)
    (e : String) (cb : Callback) :
    (runOps ops (initFlow u o)).eventListeners.map Prod.fst
      = ["connect", "disconnect", "error"] ∧
    (e ∉ (["connect", "disconnect", "error"] : List String) →
      onEvent e cb (runOps ops (initFlow u o)) = (runOps ops (initFlow u o), [])) := by
  have hkeys : (runOps ops (initFlow u o)).eventListeners.map Prod.fst
      = ["connect", "disconnect", "error"] := by
    rw [runOps_map_fst]
    rfl
  refine ⟨hkeys, fun he => ?_⟩
  have hnone : objGet (runOps ops (initFlow u o)).eventListeners e = none := by
    rw [objGet_eq_none_iff, hkeys]
    exact he
  simp [onEvent, hnone]

theorem claim7_witness :
    (runOps [FlowOp.opConnect (some "t"), FlowOp.opOn "connect" 1]
        (initFlow "u" [])).eventListeners.map Prod.fst
      = ["connect", "disconnect", "error"] ∧
    onEvent "nope" 2 (runOps [FlowOp.opConnect (some "t"), FlowOp.opOn "connect" 1]
        (initFlow "u" []))
      = (runOps [FlowOp.opConnect (some "t"), FlowOp.opOn "connect" 1] (initFlow "u" []),
         []) :=
  ⟨(claim7_registry_keys "u" [] [FlowOp.opConnect (some "t"), FlowOp.opOn "connect" 1]
      "nope" 2).1,
   (claim7_registry_keys "u" [] [FlowOp.opConnect (some "t"), FlowOp.opOn "connect" 1]
      "nope" 2).2 (by decide)⟩

/-- Claim C8: no public operation ever raises an error back to its caller:
under the exception-aware semantics, where every method call on a null or
undefined receiver throws, all seven public operations return `ok` with the
behavior of the total semantics, for every state and input. -/
theorem claim8_never_throws (s : FlowState) (t : Option String) (e : String) (d : Nat)
    (cb : Callback) (nw : List (String × OptVal)) :
    connectE t s = Except.ok (connect t s) ∧
    disconnectE s = Except.ok (disconnect s) ∧
    sendE e d s = Except.ok (send e d s) ∧
    receiveE e cb s = Except.ok (receive e cb s) ∧
    onE e cb s = Except.ok (onEvent e cb s) ∧
    offE e cb s = Except.ok (off e cb s) ∧
    setOptionsE nw s = Except.ok (setOptions nw s) :=
  ⟨connectE_ok t s, disconnectE_ok s, sendE_ok e d s, receiveE_ok e cb s,
   onE_ok e cb s, offE_ok e cb s, setOptionsE_ok nw s⟩

/-- Claim C9, counterexample: the empty string is a non-null token, but JS
`if (token)` treats it as falsy, so `connect("")` leaves the stored url
untouched instead of permanently overwriting it with a token-extended URL. -/
theorem claim9_counterexample :
    ((connect (some "") (initFlow "http://host/" [])).1).url = "http://host/" ∧
    ((connect (some "") (initFlow "http://host/" [])).1).url ≠ "http://host/?token=" := by
  constructor <;> decide

/-- Claim C9, amended: `connect` with a non-null, non-empty token permanently
rewrites the stored url (the extended url contains a `token=` parameter), and
every later connect with a non-null, non-empty token — explicit, the
reconnect scheduled by `handleConnectError`, or the one made by `setOptions`,
both of which pass the stored token — appends a further `&token=...` to it. -/
theorem claim9_token_stacking (s : FlowState) (t t2 : String) (nw : List (String × OptVal))
    (ht : t ≠ "") (ht2 : t2 ≠ "") :
    ((connect (some t) s).1).url
        = s.url ++ (if '?' ∈ s.url.data then "&" else "?") ++ "token=" ++ t ∧
    ((connect (some t) s).1).token = some t ∧
    (∃ a b, (((connect (some t) s).1).url).data = a ++ ("token=" ++ t).data ++ b) ∧
    ((fireScheduledReconnect ((connect (some t) s).1)).1).url
        = ((connect (some t) s).1).url ++ "&token=" ++ t ∧
    ((setOptions nw ((connect (some t) s).1)).1).url
        = ((connect (some t) s).1).url ++ "&token=" ++ t ∧
    ((connect (some t2) ((connect (some t) s).1)).1).url
        = ((connect (some t) s).1).url ++ "&token=" ++ t2 := by
  have hurl : ((connect (some t) s).1).url = appendTokenToURL s.url t := connect_some_url s t ht
  have hq : '?' ∈ (((connect (some t) s).1).url).data := by
    rw [hurl]
    exact qmark_mem_appendTokenToURL s.url t
  have htok : ((connect (some t) s).1).token = some t := connect_some_token s t ht
  have hsock : ((connect (some t) s).1).socket = true := connect_socket_true _ _
  refine ⟨?_, htok, ?_, ?_, ?_, ?_⟩
  · rw [hurl]
    simp [appendTokenToURL]
  · refine ⟨s.url.data ++ (if '?' ∈ s.url.data then "&" else "?").data, [], ?_⟩
    rw [hurl]
    unfold appendTokenToURL
    simp [string_data_append, List.append_assoc]
  · show ((connect ((connect (some t) s).1).token ((connect (some t) s).1)).1).url = _
    rw [htok, connect_some_url _ t ht, appendTokenToURL_of_qmark _ _ hq]
  · rw [setOptions_fst_of_socket nw _ hsock, htok, connect_some_url _ t ht]
    have : ({ (connect (some t) s).1 with
        options := mergeOptions ((connect (some t) s).1).options nw }).url
        = ((connect (some t) s).1).url := rfl
    rw [this, appendTokenToURL_of_qmark _ _ hq]
  · rw [connect_some_url _ t2 ht2, appendTokenToURL_of_qmark _ _ hq]

theorem claim9_witness :
    ((connect (some "abc") (initFlow "http://host/" [])).1).url = "http://host/?token=abc" ∧
    ((fireScheduledReconnect ((connect (some "abc") (initFlow "http://host/" [])).1)).1).url
      = "http://host/?token=abc&token=abc" := by
  have h := claim9_token_stacking (initFlow "http://host/" []) "abc" "xy" []
    (by decide) (by decide)
  have h4 := h.2.2.2.1
  rw [h.1] at h4
  exact ⟨h.1.trans (by decide), h4.trans (by decide)⟩

/-- Claim C10: when connected, `setOptions` reconnects without touching the
event registry, while an explicit `disconnect()` empties all three
sequences. -/
theorem claim10_frame (s : FlowState) (nw : List (String × OptVal)) (h : s.socket = true) :
    ((setOptions nw s).1).eventListeners = s.eventListeners ∧
    ((disconnect s).1).eventListeners = s.eventListeners.map (fun p => (p.1, [])) := by
  constructor
  · rw [setOptions_fst_of_socket nw s h, connect_eventListeners]
  · simp [disconnect, h, clearEventListeners]

theorem claim10_witness :
    ((setOptions [("a", 1)]
        ((connect none ((onEvent "connect" 5 (initFlow "u" [])).1)).1)).1).eventListeners
      = ((connect none ((onEvent "connect" 5 (initFlow "u" [])).1)).1).eventListeners ∧
    ((disconnect ((connect none ((onEvent "connect" 5 (initFlow "u" [])).1)).1)).1).eventListeners
      = ((connect none ((onEvent "connect" 5
          (initFlow "u" [])).1)).1).eventListeners.map (fun p => (p.1, [])) :=
  claim10_frame ((connect none ((onEvent "connect" 5 (initFlow "u" [])).1)).1) [("a", 1)]
    (by decide)

end Flow
